import Mathlib

/-!
Verification development for the vrt-events-essence service: a shallow
embedding of the event-handling pipeline (event parsing, handler state
machines, the retry/backoff primitive, and the acknowledgment policy),
translated from the Python source, together with theorems settling the
specification claims.
-/

namespace VrtEventsEssence

/-- Embeds `NackException` from app/app.py: the structured stop-error carrying
a message, a requeue flag (default `False` in Python) and a key-value context
bag (`kwargs`). Context values are abstracted to strings. -/
structure NackException where
  message : String
  requeue : Bool
  kwargs : List (String × String)
deriving Repr, DecidableEq

/-- Embeds `InvalidEventException` from app/helpers/events_parser.py. -/
structure InvalidEventException where
  message : String
deriving Repr, DecidableEq

/-- Embeds `RetryException` from app/helpers/retry.py. -/
structure RetryException where
  message : String
deriving Repr, DecidableEq

/-- Outcome of running a handler's `handle_event`: normal return, a raised
`NackException`, or any other uncaught Python exception (e.g. `IndexError`),
which escapes `handle_message` because only `NackException` is caught there. -/
inductive HandlerOutcome (α : Type) where
  | ok (a : α)
  | nack (e : NackException)
  | crash (message : String)
deriving Repr, DecidableEq

/-! ## Retry / backoff primitive (app/helpers/retry.py) -/

/-- Embeds `DELAY` from app/helpers/retry.py. -/
def DELAY : Nat := 1

/-- Embeds `BACKOFF` from app/helpers/retry.py. -/
def BACKOFF : Nat := 2

/-- Embeds `NUMBER_OF_TRIES` from app/helpers/retry.py. -/
def NUMBER_OF_TRIES : Nat := 5

/-- One attempt of an operation wrapped by the `retry` decorator: it may
return a value, raise one of the designated retryable exceptions (caught by
the wrapper), or raise any other exception (which propagates uncaught). -/
inductive RetryStep (ε α : Type) where
  | value (a : α)
  | retryable (e : RetryException)
  | escalate (e : ε)
deriving Repr, DecidableEq

/-- Final outcome of the `retry` wrapper: a returned value, a non-retryable
exception propagating out, or exhaustion of all tries, in which case the
Python wrapper falls through the `while` loop and returns the falsy value
`False` rather than raising. -/
inductive RetryOutcome (ε α : Type) where
  | value (a : α)
  | escalated (e : ε)
  | exhausted
deriving Repr, DecidableEq

/-- Observable trace of one run of the `retry` wrapper: the outcome, the list
of `time.sleep` durations in order, and how many times the wrapped operation
was attempted. -/
structure RetryTrace (ε α : Type) where
  outcome : RetryOutcome ε α
  sleeps : List Nat
  attempts : Nat
deriving Repr, DecidableEq

/-- Embeds the `while tries:` loop of `retry.wrapper`: each iteration
decrements `tries`, attempts the operation (attempt number passed to the
oracle `f`), returns on success, and on a retryable exception sleeps `delay`
seconds then doubles `delay`. Note the sleep happens even after the last
failed attempt, exactly as in the Python loop. -/
def retryLoop {ε α : Type} (f : Nat → RetryStep ε α) (attempt : Nat) (delay : Nat) :
    Nat → RetryTrace ε α
  | 0 => ⟨RetryOutcome.exhausted, [], 0⟩
  | tries + 1 =>
    match f attempt with
    | RetryStep.value a => ⟨RetryOutcome.value a, [], 1⟩
    | RetryStep.escalate e => ⟨RetryOutcome.escalated e, [], 1⟩
    | RetryStep.retryable _ =>
      let rest := retryLoop f (attempt + 1) (delay * BACKOFF) tries
      ⟨rest.outcome, delay :: rest.sleeps, rest.attempts + 1⟩

/-- Embeds a full run of the `retry` decorator with its module-level default
parameters (`DELAY = 1`, `BACKOFF = 2`, `NUMBER_OF_TRIES = 5`). -/
def retryRun {ε α : Type} (f : Nat → RetryStep ε α) : RetryTrace ε α :=
  retryLoop f 0 DELAY NUMBER_OF_TRIES

/-! ## XML model and event parsing (app/helpers/events_parser.py) -/

/-- Abstract XML element (the lxml DOM as far as this service observes it): a
namespace URI (empty for elements without a namespace), a local tag name, the
element's text (`none` embeds lxml's `None` text), its attributes and its
child elements in document order. -/
inductive XmlElem where
  | mk (ns : String) (tag : String) (text : Option String)
      (attrs : List (String × String)) (children : List XmlElem)
deriving Repr

/-- Namespace URI of an element. -/
def XmlElem.ns : XmlElem → String
  | XmlElem.mk n _ _ _ _ => n

/-- Local tag name of an element. -/
def XmlElem.tag : XmlElem → String
  | XmlElem.mk _ t _ _ _ => t

/-- Text content of an element (`none` embeds lxml's `None`). -/
def XmlElem.text : XmlElem → Option String
  | XmlElem.mk _ _ t _ _ => t

/-- Attributes of an element. -/
def XmlElem.attrs : XmlElem → List (String × String)
  | XmlElem.mk _ _ _ a _ => a

/-- Child elements of an element in document order. -/
def XmlElem.children : XmlElem → List XmlElem
  | XmlElem.mk _ _ _ _ c => c

/-- Embeds `VRT_NAMESPACE` from app/helpers/events_parser.py. -/
def VRT_NAMESPACE : String := "http://www.vrt.be/mig/viaa/api"

/-- First child element matching the namespace-qualified path `./p:tag`
(with `p` bound to the VRT namespace), as selected by
`xml_element.xpath(xpath)[0]` in `_get_xpath_from_event`. -/
def findChild (el : XmlElem) (tag : String) : Option XmlElem :=
  el.children.find? (fun c => c.ns == VRT_NAMESPACE && c.tag == tag)

/-- Embeds `EssenceEvent._get_essence_event`: the raw bytes either fail XML
parsing (embedded as input `none`) raising `InvalidEventException`, or yield
a document whose root is matched against `/p:rootTag` under the VRT
namespace; no match raises `InvalidEventException`. -/
def getEssenceEvent (doc : Option XmlElem) (rootTag : String) :
    Except InvalidEventException XmlElem :=
  match doc with
  | none => Except.error ⟨"Event is not valid XML."⟩
  | some root =>
    if root.ns == VRT_NAMESPACE && root.tag == rootTag then Except.ok root
    else Except.error ⟨"Event root tag does not match."⟩

/-- Embeds `EssenceEvent._get_xpath_from_event`: takes the text of the first
child matching the path; when no child matches, returns the empty string if
the field is optional and raises `InvalidEventException` otherwise. -/
def getXpathFromEvent (el : XmlElem) (tag : String) (opt : Bool) :
    Except InvalidEventException (Option String) :=
  match findChild el tag with
  | some c => Except.ok c.text
  | none =>
    if opt then Except.ok (some "")
    else Except.error ⟨"Field is not present in the event."⟩

/-- Fields of the abstract `EssenceEvent` base class: `timestamp` and
`media_id`, each the text of the matched child element. -/
structure EssenceEventData where
  timestamp : Option String
  mediaId : Option String
deriving Repr, DecidableEq

/-- Fields of `EssenceLinkedEvent`: base fields plus `file` and `s3_bucket`. -/
structure EssenceLinkedEventData where
  timestamp : Option String
  mediaId : Option String
  file : Option String
  s3Bucket : Option String
deriving Repr, DecidableEq

/-- Embeds `EssenceEvent.__init__`: locate the root element for the variant's
`root_tag`, then extract the mandatory `timestamp` (path `./p:timestamp`) and
`media_id` (path `./p:mediaId`) fields, in that order. -/
def essenceEventBase (doc : Option XmlElem) (rootTag : String) :
    Except InvalidEventException (XmlElem × EssenceEventData) :=
  match getEssenceEvent doc rootTag with
  | Except.error e => Except.error e
  | Except.ok el =>
    match getXpathFromEvent el "timestamp" false with
    | Except.error e => Except.error e
    | Except.ok ts =>
      match getXpathFromEvent el "mediaId" false with
      | Except.error e => Except.error e
      | Except.ok mid => Except.ok (el, ⟨ts, mid⟩)

/-- Embeds `EssenceLinkedEvent(xml)` (root tag `essenceLinkedEvent`): after
the base fields, extract `file` (path `./p:file`) and `s3_bucket`
(path `./p:s3bucket`), both without the optional flag. -/
def essenceLinkedEventOfDoc (doc : Option XmlElem) :
    Except InvalidEventException EssenceLinkedEventData :=
  match essenceEventBase doc "essenceLinkedEvent" with
  | Except.error e => Except.error e
  | Except.ok (el, base) =>
    match getXpathFromEvent el "file" false with
    | Except.error e => Except.error e
    | Except.ok f =>
      match getXpathFromEvent el "s3bucket" false with
      | Except.error e => Except.error e
      | Except.ok s3 => Except.ok ⟨base.timestamp, base.mediaId, f, s3⟩

/-- Embeds `EssenceUnlinkedEvent(xml)` (root tag `essenceUnlinkedEvent`). -/
def essenceUnlinkedEventOfDoc (doc : Option XmlElem) :
    Except InvalidEventException EssenceEventData :=
  match essenceEventBase doc "essenceUnlinkedEvent" with
  | Except.error e => Except.error e
  | Except.ok (_, base) => Except.ok base

/-- Embeds `ObjectDeletedEvent(xml)` (root tag `objectDeletedEvent`). -/
def objectDeletedEventOfDoc (doc : Option XmlElem) :
    Except InvalidEventException EssenceEventData :=
  match essenceEventBase doc "objectDeletedEvent" with
  | Except.error e => Except.error e
  | Except.ok (_, base) => Except.ok base

/-- True exactly when event construction raised `InvalidEventException`
(so no event object, partially populated or otherwise, was produced). -/
def parseFailed {α : Type} : Except InvalidEventException α → Bool
  | Except.ok _ => false
  | Except.error _ => true

/-! ## MediaHaven client calls (as observed by app/app.py handlers) -/

/-- Result of one call into the MediaHaven client: a returned value, a raised
`MediaHavenException`, or a raised `RequestException` (the transport could
not reach the backend). -/
inductive MHCall (α : Type) where
  | ok (value : α)
  | mhError (message : String)
  | reqError (message : String)
deriving Repr, DecidableEq

/-- Projection of one MediaHaven record as the handlers observe it.
`mediaObjectId` embeds `record.Internal.MediaObjectId` and `ieType` embeds
`record.Administrative.Type`; `none` embeds the `AttributeError` raised when
the attribute is absent. -/
structure MHRecord where
  fragmentId : String
  mediaObjectId : Option String
  ieType : Option String
  title : String
deriving Repr, DecidableEq

/-- A search result page: the reported total and the records in order. -/
structure SearchResponse where
  totalNrOfResults : Nat
  records : List MHRecord
deriving Repr, DecidableEq

/-- Python str() of an optional string, as used when a possibly-`None` field
is interpolated into a query value or message. -/
def pyStr : Option String → String
  | some s => s
  | none => "None"

/-- Embeds `BaseHandler._create_query`: conjunctive field/value clauses,
each value double-quoted, joined with spaces. -/
def createQuery (queryKeyValues : List (String × String)) : String :=
  String.intercalate " "
    (queryKeyValues.map (fun kv => "+(" ++ kv.1 ++ ": \"" ++ kv.2 ++ "\")"))

/-- Embeds `BaseHandler._get_fragment`: search MediaHaven with the query; if
`expected_amount > -1` and the reported total differs, raise a
non-requeueing `NackException`; a `MediaHavenException` raises a
non-requeueing `NackException`; a `RequestException` raises a requeueing
`NackException`. -/
def get_fragment (queryKeyValues : List (String × String)) (expectedAmount : Int)
    (search : MHCall SearchResponse) : Except NackException SearchResponse :=
  match search with
  | MHCall.ok response =>
    if expectedAmount > -1 ∧ (response.totalNrOfResults : Int) ≠ expectedAmount then
      Except.error ⟨"Expected amount of results differs from the found amount",
        false, [("query", createQuery queryKeyValues)]⟩
    else Except.ok response
  | MHCall.mhError m =>
    Except.error ⟨"Unable to retrieve fragment", false,
      [("error_response", m), ("query", createQuery queryKeyValues)]⟩
  | MHCall.reqError m =>
    Except.error ⟨"Unable to connect to MediaHaven", true, [("error", m)]⟩

/-! ## PID service (app/services/pid.py) -/

/-- One HTTP GET against the PID service: either the transport raises
`RequestException`, or a response arrives whose parsed JSON yields the id at
`resp.json()[0]["id"]` (`none` embeds the `IndexError`/`KeyError` raised
when that path is absent). -/
inductive PidHttpResult where
  | reqError
  | response (pidId : Option String)
deriving Repr, DecidableEq

/-- Embeds `PIDService.get_pid` from app/services/pid.py, traced as
(result, number of HTTP attempts, sleep durations): the source performs a
single GET, turns `RequestException` and JSON-shape errors into a `None`
result, and neither retries nor sleeps. The oracle is indexed by attempt
number so that a retrying implementation would be expressible. -/
def getPid (transport : Nat → PidHttpResult) : Option String × Nat × List Nat :=
  match transport 0 with
  | PidHttpResult.reqError => (none, 1, [])
  | PidHttpResult.response j => (j, 1, [])

/-- Python truthiness test `not pid` for an optional string: `None` and the
empty string are falsy. -/
def pyFalsy : Option String → Bool
  | none => true
  | some s => s.isEmpty

/-- Embeds `EssenceLinkedHandler._get_pid`: a falsy PID raises a requeueing
`NackException`, otherwise the PID is returned. -/
def handlerGetPid (pid : Option String) : Except NackException String :=
  if pyFalsy pid then Except.error ⟨"Unable to get a pid", true, []⟩
  else Except.ok (pyStr pid)

/-! ## Metadata sidecar (EssenceLinkedHandler._construct_metadata) -/

/-- Embeds `NAMESPACE_MHS` from app/app.py. -/
def NAMESPACE_MHS : String := "https://zeticon.mediahaven.com/metadata/20.1/mhs/"

/-- Embeds `etree.Element`/`etree.SubElement` creation of a fresh element
with a namespace and tag, no text, no attributes and no children. -/
def newElement (ns tag : String) : XmlElem :=
  XmlElem.mk ns tag none [] []

/-- Embeds assigning `.text` on an element. -/
def setText (el : XmlElem) (t : Option String) : XmlElem :=
  XmlElem.mk el.ns el.tag t el.attrs el.children

/-- Embeds `etree.SubElement`'s attachment of a child under a parent, at the
end of the parent's child list. -/
def appendChild (parent child : XmlElem) : XmlElem :=
  XmlElem.mk parent.ns parent.tag parent.text parent.attrs (parent.children ++ [child])

/-- Embeds `EssenceLinkedHandler._construct_metadata`: the namespaced
`Sidecar` root carrying `version="20.1"`, holding one `Dynamic` element with
children appended in source order: `dc_identifier_localid`, `PID`,
`dc_identifier_localids` (holding `MEDIA_ID`), `object_level` = "ie",
`object_use` = "archive_master", `ie_type`. The Python code attaches each
subelement on creation and mutates in place; this pure embedding builds each
element fully before attaching it, producing the same final tree. -/
def construct_metadata (mediaId : Option String) (pid : String)
    (ieType : Option String) : XmlElem :=
  let root := XmlElem.mk NAMESPACE_MHS "Sidecar" none [("version", "20.1")] []
  let dynamic := newElement NAMESPACE_MHS "Dynamic"
  let dynamic := appendChild dynamic (setText (newElement "" "dc_identifier_localid") mediaId)
  let dynamic := appendChild dynamic (setText (newElement "" "PID") (some pid))
  let localIds := appendChild (newElement "" "dc_identifier_localids")
    (setText (newElement "" "MEDIA_ID") mediaId)
  let dynamic := appendChild dynamic localIds
  let dynamic := appendChild dynamic (setText (newElement "" "object_level") (some "ie"))
  let dynamic := appendChild dynamic (setText (newElement "" "object_use") (some "archive_master"))
  let dynamic := appendChild dynamic (setText (newElement "" "ie_type") ieType)
  appendChild root dynamic

/-! ## Essence linked handler (app/app.py, EssenceLinkedHandler) -/

/-- The create-fragment response as observed:
`response["Internal"]["FragmentId"]`, with `none` embedding the `KeyError`
raised in `_parse_fragment_id` when the key path is absent. -/
structure CreateFragmentResponse where
  fragmentId : Option String
deriving Repr, DecidableEq

/-- Embeds `EssenceLinkedHandler._create_fragment`: a `MediaHavenException`
raises a non-requeueing `NackException`, a `RequestException` raises a
requeueing one. -/
def create_fragment (umid : String) (title : String)
    (call : MHCall CreateFragmentResponse) : Except NackException CreateFragmentResponse :=
  match call with
  | MHCall.ok r => Except.ok r
  | MHCall.mhError m =>
    Except.error ⟨"Unable to create a fragment", false,
      [("umid", umid), ("title", title), ("error_response", m)]⟩
  | MHCall.reqError _ =>
    Except.error ⟨"Unable to connect to MediaHaven", true, [("umid", umid)]⟩

/-- Embeds `EssenceLinkedHandler._parse_fragment_id`. -/
def parseFragmentId (resp : CreateFragmentResponse) : Except NackException String :=
  match resp.fragmentId with
  | some fid => Except.ok fid
  | none =>
    Except.error ⟨"fragmentId not found in the response of the create fragment call",
      false, []⟩

/-- One attempt of `mh_client.records.update`: a returned value, a raised
`MediaHavenException` with its HTTP status code, or a raised
`RequestException`. -/
inductive UpdateAttempt where
  | value (result : Bool)
  | mhError (status : Nat) (message : String)
  | reqError (message : String)
deriving Repr, DecidableEq

/-- Exceptions that escape the retry wrapper around
`_add_metadata_to_fragment`: a re-raised `MediaHavenException` (status not
403/404) or a `RequestException` the wrapper does not catch. -/
inductive UpdateEscalation where
  | mh (status : Nat) (message : String)
  | req (message : String)
deriving Repr, DecidableEq

/-- Embeds the body of `EssenceLinkedHandler._add_metadata_to_fragment`
(before the `@retry` wrapper is applied): a `MediaHavenException` with
status 403 or 404 is converted into `RetryException`; any other
`MediaHavenException` is re-raised; a `RequestException` propagates. -/
def addMetadataToFragmentStep (update : Nat → UpdateAttempt) (n : Nat) :
    RetryStep UpdateEscalation Bool :=
  match update n with
  | UpdateAttempt.value b => RetryStep.value b
  | UpdateAttempt.mhError status m =>
    if status = 403 ∨ status = 404 then RetryStep.retryable ⟨m⟩
    else RetryStep.escalate (UpdateEscalation.mh status m)
  | UpdateAttempt.reqError m => RetryStep.escalate (UpdateEscalation.req m)

/-- Embeds `@retry(RetryException)`-wrapped `_add_metadata_to_fragment`. -/
def addMetadataToFragment (update : Nat → UpdateAttempt) :
    RetryTrace UpdateEscalation Bool :=
  retryRun (addMetadataToFragmentStep update)

/-- Embeds `EssenceLinkedHandler._add_metadata`: builds the sidecar, runs the
retried update; a `MediaHavenException` raises a non-requeueing
`NackException`, a `RequestException` a requeueing one, and a falsy result
(explicit `False` or retry exhaustion) a non-requeueing one. -/
def addMetadata (fragmentId : String) (mediaId : Option String) (pid : String)
    (ieType : Option String) (update : Nat → UpdateAttempt) :
    Except NackException Unit :=
  let _sidecar := construct_metadata mediaId pid ieType
  match (addMetadataToFragment update).outcome with
  | RetryOutcome.value true => Except.ok ()
  | RetryOutcome.value false =>
    Except.error ⟨"Unable to update the metadata", false,
      [("fragment_id", fragmentId), ("media_id", pyStr mediaId)]⟩
  | RetryOutcome.exhausted =>
    Except.error ⟨"Unable to update the metadata", false,
      [("fragment_id", fragmentId), ("media_id", pyStr mediaId)]⟩
  | RetryOutcome.escalated (UpdateEscalation.mh _ m) =>
    Except.error ⟨"Unable to update the metadata", false,
      [("fragment_id", fragmentId), ("media_id", pyStr mediaId), ("error_response", m)]⟩
  | RetryOutcome.escalated (UpdateEscalation.req _) =>
    Except.error ⟨"Unable to connect to MediaHaven", true, [("fragment_id", fragmentId)]⟩

/-- Observable side effects of a handler run, in order. -/
inductive Effect where
  | logInfo (message : String)
  | searchQuery (query : List (String × String))
  | getPidCall
  | createFragmentCall (umid : String)
  | updateMetadataCall (fragmentId : String)
  | sendMessage (routingKey : String)
deriving Repr, DecidableEq

/-- Environment of backend responses one run of the linked handler can
observe, in pipeline order. -/
structure LinkedEnv where
  searchByS3 : MHCall SearchResponse
  searchByMediaId : MHCall SearchResponse
  pid : Option String
  create : MHCall CreateFragmentResponse
  update : Nat → UpdateAttempt

/-- Embeds `EssenceLinkedHandler._parse_event`: an `InvalidEventException`
is wrapped into a non-requeueing `NackException`. -/
def linkedParseEvent (doc : Option XmlElem) : Except NackException EssenceLinkedEventData :=
  match essenceLinkedEventOfDoc doc with
  | Except.error e =>
    Except.error ⟨"Unable to parse the incoming essence linked event", false,
      [("error", e.message)]⟩
  | Except.ok event => Except.ok event

/-- Embeds `EssenceLinkedHandler.handle_event` after the sentinel-bucket
check: the two guarded searches, umid and ie_type extraction from the first
record (`fragment[0]`, whose absence is an uncaught `IndexError`), the PID
fetch, fragment creation, metadata update, and the outbound
getMetadataRequest publication. -/
def handleLinkedRest (event : EssenceLinkedEventData) (env : LinkedEnv)
    (routingKey : String) : HandlerOutcome Unit × List Effect :=
  let q1 := [("s3_object_key", pyStr event.file), ("IsFragment", "0")]
  let eff1 := [Effect.searchQuery q1]
  match get_fragment q1 1 env.searchByS3 with
  | Except.error e => (HandlerOutcome.nack e, eff1)
  | Except.ok fragment =>
    let q2 := [("dc_identifier_localid", pyStr event.mediaId)]
    let eff2 := eff1 ++ [Effect.searchQuery q2]
    match get_fragment q2 0 env.searchByMediaId with
    | Except.error e => (HandlerOutcome.nack e, eff2)
    | Except.ok _ =>
      match fragment.records.head? with
      | none => (HandlerOutcome.crash "IndexError", eff2)
      | some record0 =>
        match record0.mediaObjectId with
        | none =>
          (HandlerOutcome.nack
            ⟨"MediaObjectId not found in the MediaHaven object", false, []⟩, eff2)
        | some umid =>
          let ieType := record0.ieType
          let eff3 := eff2 ++ [Effect.getPidCall]
          match handlerGetPid env.pid with
          | Except.error e => (HandlerOutcome.nack e, eff3)
          | Except.ok pid =>
            let eff4 := eff3 ++ [Effect.createFragmentCall umid]
            match create_fragment umid record0.title env.create with
            | Except.error e => (HandlerOutcome.nack e, eff4)
            | Except.ok createResp =>
              match parseFragmentId createResp with
              | Except.error e => (HandlerOutcome.nack e, eff4)
              | Except.ok fragmentId =>
                let eff5 := eff4 ++ [Effect.updateMetadataCall fragmentId]
                match addMetadata fragmentId event.mediaId pid ieType env.update with
                | Except.error e => (HandlerOutcome.nack e, eff5)
                | Except.ok _ =>
                  (HandlerOutcome.ok (), eff5 ++ [Effect.sendMessage routingKey])

/-- Embeds `EssenceLinkedHandler.handle_event` from the start: log, parse the
event, and skip (returning successfully with no further step) when
`event.s3_bucket == "original-video"`; otherwise run the pipeline. -/
def handleLinkedEvent (doc : Option XmlElem) (env : LinkedEnv)
    (routingKey : String) : HandlerOutcome Unit × List Effect :=
  let startLog := [Effect.logInfo "Start handling essence linked event"]
  match linkedParseEvent doc with
  | Except.error e => (HandlerOutcome.nack e, startLog)
  | Except.ok event =>
    if event.s3Bucket = some "original-video" then
      (HandlerOutcome.ok (),
        startLog ++ [Effect.logInfo ("Skipped " ++ pyStr event.file ++
          " because it arrived in the " ++ pyStr event.s3Bucket ++ " bucket.")])
    else
      let (res, effs) := handleLinkedRest event env routingKey
      (res, startLog ++ effs)

/-! ## Delete handlers (app/app.py, DeleteFragmentHandler) -/

/-- Embeds `DeleteFragmentHandler._delete_fragment`: a `MediaHavenException`
raises a non-requeueing `NackException`, a `RequestException` raises a
requeueing one, and otherwise the backend's boolean result is returned. -/
def delete_fragment (fragmentId : String) (call : MHCall Bool) :
    Except NackException Bool :=
  match call with
  | MHCall.ok result => Except.ok result
  | MHCall.mhError m =>
    Except.error ⟨"Unable to delete a fragment", false,
      [("error_response", m), ("fragment_id", fragmentId)]⟩
  | MHCall.reqError _ =>
    Except.error ⟨"Unable to connect to MediaHaven", true,
      [("fragment_id", fragmentId)]⟩

/-- Embeds the `for record in response` loop of
`DeleteFragmentHandler.handle_event`: delete each record's fragment in order;
a raised `NackException` aborts, and an explicit falsy result raises a
non-requeueing `NackException`. -/
def deleteLoop (deleteCall : String → MHCall Bool) (mediaId : Option String) :
    List MHRecord → Except NackException Unit
  | [] => Except.ok ()
  | r :: rs =>
    match delete_fragment r.fragmentId (deleteCall r.fragmentId) with
    | Except.error e => Except.error e
    | Except.ok result =>
      if result then deleteLoop deleteCall mediaId rs
      else
        Except.error ⟨"Unable to delete the fragment", false,
          [("fragment_id", r.fragmentId), ("media_id", pyStr mediaId)]⟩

/-- Embeds `DeleteFragmentHandler.handle_event` after parsing: search all
records for `dc_identifier_localid = media_id` (no expected-count check), a
zero reported total raises a non-requeueing `NackException`, otherwise each
matched record's fragment is deleted in order. -/
def deleteHandleEvent (mediaId : Option String) (search : MHCall SearchResponse)
    (deleteCall : String → MHCall Bool) : Except NackException Unit :=
  match get_fragment [("dc_identifier_localid", pyStr mediaId)] (-1) search with
  | Except.error e => Except.error e
  | Except.ok response =>
    if response.totalNrOfResults = 0 then
      Except.error ⟨"No fragments found for media id", false,
        [("media_id", pyStr mediaId)]⟩
    else deleteLoop deleteCall mediaId response.records

/-! ## Dispatcher / acknowledgment policy (app/app.py, EventListener) -/

/-- Queue-side actions taken by `EventListener.handle_message` and
`EventListener._handle_nack_exception`. -/
inductive DispatchAction where
  | logError (message : String) (kwargs : List (String × String))
  | sleep (seconds : Nat)
  | basicNack (requeue : Bool)
  | basicAck
deriving Repr, DecidableEq

/-- Embeds `EventListener._handle_nack_exception`: log the error with its
attached context, sleep 10 seconds when the exception asks for a requeue,
then nack with the exception's requeue flag. -/
def handleNackException (e : NackException) : List DispatchAction :=
  [DispatchAction.logError e.message e.kwargs]
    ++ (if e.requeue then [DispatchAction.sleep 10] else [])
    ++ [DispatchAction.basicNack e.requeue]

/-- Embeds the try/except of `EventListener.handle_message` around
`handler.handle_event(body)`: ack on normal return, run the nack path on a
`NackException`, and on any other exception neither ack nor nack is sent
(the exception propagates out of `handle_message`). -/
def handleMessage (result : HandlerOutcome Unit) : List DispatchAction :=
  match result with
  | HandlerOutcome.ok _ => [DispatchAction.basicAck]
  | HandlerOutcome.nack e => handleNackException e
  | HandlerOutcome.crash _ => []

/-! ## Claim theorems C1 and C2 -/

/-- C1: the dispatcher acknowledges an inbound message exactly when the
selected handler's `handle_event` returns without raising `NackException`;
when `NackException` is raised, it logs at error level with the attached
context, sleeps 10 seconds exactly when the requeue flag is true, and nacks
with requeue equal to that flag. -/
theorem c1_dispatcher_ack_policy (r : HandlerOutcome Unit) :
    (handleMessage r = [DispatchAction.basicAck] ↔ r = HandlerOutcome.ok ()) ∧
    (∀ e, r = HandlerOutcome.nack e →
      handleMessage r =
        [DispatchAction.logError e.message e.kwargs]
          ++ (if e.requeue then [DispatchAction.sleep 10] else [])
          ++ [DispatchAction.basicNack e.requeue]) := by
  refine ⟨?_, ?_⟩
  · cases r with
    | ok a => cases a; simp [handleMessage]
    | nack e =>
      simp only [handleMessage, handleNackException]
      constructor
      · intro h
        cases he : e.requeue <;> simp [he] at h
      · intro h
        exact absurd h (by simp)
    | crash m => simp [handleMessage]
  · intro e he
    subst he
    rfl

/-- Witness for C1 at a concrete requeueing `NackException`. -/
theorem c1_dispatcher_ack_policy_witness :
    handleMessage (HandlerOutcome.nack ⟨"boom", true, [("k", "v")]⟩) =
      [DispatchAction.logError "boom" [("k", "v")], DispatchAction.sleep 10,
        DispatchAction.basicNack true] := by
  have h := (c1_dispatcher_ack_policy
    (HandlerOutcome.nack ⟨"boom", true, [("k", "v")]⟩)).2 ⟨"boom", true, [("k", "v")]⟩ rfl
  simpa using h

/-- C2: with the default parameters, if the wrapped operation raises a
retryable error on every attempt, the `retry` wrapper attempts the operation
exactly 5 times with sleeps of 1, 2, 4, 8, 16 seconds, and then yields the
definitive falsy failure value (`False`, embedded as `exhausted`) instead of
raising an exception. -/
theorem c2_retry_exhaustion {ε α : Type} (f : Nat → RetryStep ε α)
    (h : ∀ n, n < NUMBER_OF_TRIES → ∃ e, f n = RetryStep.retryable e) :
    retryRun f = ⟨RetryOutcome.exhausted, [1, 2, 4, 8, 16], 5⟩ := by
  obtain ⟨e0, h0⟩ := h 0 (by norm_num [NUMBER_OF_TRIES])
  obtain ⟨e1, h1⟩ := h 1 (by norm_num [NUMBER_OF_TRIES])
  obtain ⟨e2, h2⟩ := h 2 (by norm_num [NUMBER_OF_TRIES])
  obtain ⟨e3, h3⟩ := h 3 (by norm_num [NUMBER_OF_TRIES])
  obtain ⟨e4, h4⟩ := h 4 (by norm_num [NUMBER_OF_TRIES])
  simp [retryRun, NUMBER_OF_TRIES, DELAY, BACKOFF, retryLoop, h0, h1, h2, h3, h4]

/-- Witness for C2: an operation failing with a retryable error on every
attempt is tried 5 times with sleeps 1, 2, 4, 8, 16 and ends exhausted. -/
theorem c2_retry_exhaustion_witness :
    retryRun ((fun _ => RetryStep.retryable ⟨"err"⟩) : Nat → RetryStep Unit Unit) =
      ⟨RetryOutcome.exhausted, [1, 2, 4, 8, 16], 5⟩ :=
  c2_retry_exhaustion _ (fun _ _ => ⟨⟨"err"⟩, rfl⟩)

/-! ## Parser lemmas -/

/-- Input bytes that are not well-formed XML fail root location. -/
theorem getEssenceEvent_none (tag : String) :
    getEssenceEvent none tag = Except.error ⟨"Event is not valid XML."⟩ := rfl

/-- A namespace or tag mismatch at the root fails root location. -/
theorem getEssenceEvent_badroot (root : XmlElem) (tag : String)
    (h : root.ns ≠ VRT_NAMESPACE ∨ root.tag ≠ tag) :
    getEssenceEvent (some root) tag = Except.error ⟨"Event root tag does not match."⟩ := by
  rcases h with h | h <;> simp [getEssenceEvent, h]

/-- A matching root is returned by root location. -/
theorem getEssenceEvent_ok (root : XmlElem) (tag : String)
    (hns : root.ns = VRT_NAMESPACE) (htag : root.tag = tag) :
    getEssenceEvent (some root) tag = Except.ok root := by
  simp [getEssenceEvent, hns, htag]

/-- Field extraction returns the text of the first matching child element. -/
theorem getXpathFromEvent_found (el : XmlElem) (tag : String) (c : XmlElem)
    (h : findChild el tag = some c) (opt : Bool) :
    getXpathFromEvent el tag opt = Except.ok c.text := by
  simp [getXpathFromEvent, h]

/-- Extraction of a mandatory field with no matching child element raises
`InvalidEventException`. -/
theorem getXpathFromEvent_missing (el : XmlElem) (tag : String)
    (h : findChild el tag = none) :
    getXpathFromEvent el tag false = Except.error ⟨"Field is not present in the event."⟩ := by
  simp [getXpathFromEvent, h]

/-- Base-event construction succeeds on a matching root with its `timestamp`
and `mediaId` children present, returning their texts. -/
theorem essenceEventBase_ok (root : XmlElem) (tag : String)
    (hns : root.ns = VRT_NAMESPACE) (htag : root.tag = tag)
    (tsEl midEl : XmlElem)
    (hts : findChild root "timestamp" = some tsEl)
    (hmid : findChild root "mediaId" = some midEl) :
    essenceEventBase (some root) tag = Except.ok (root, ⟨tsEl.text, midEl.text⟩) := by
  simp [essenceEventBase, getEssenceEvent_ok root tag hns htag,
    getXpathFromEvent_found root "timestamp" tsEl hts,
    getXpathFromEvent_found root "mediaId" midEl hmid]

/-- Base-event construction fails on a root mismatch or a missing mandatory
base field. -/
theorem essenceEventBase_failed (root : XmlElem) (tag : String)
    (h : root.ns ≠ VRT_NAMESPACE ∨ root.tag ≠ tag ∨
      findChild root "timestamp" = none ∨ findChild root "mediaId" = none) :
    ∃ e, essenceEventBase (some root) tag = Except.error e := by
  by_cases hns : root.ns = VRT_NAMESPACE
  · by_cases htag : root.tag = tag
    · cases hts : findChild root "timestamp" with
      | none =>
        exact ⟨⟨"Field is not present in the event."⟩,
          by simp [essenceEventBase, getEssenceEvent_ok root tag hns htag,
            getXpathFromEvent_missing root "timestamp" hts]⟩
      | some tsEl =>
        cases hmid : findChild root "mediaId" with
        | none =>
          exact ⟨⟨"Field is not present in the event."⟩,
            by simp [essenceEventBase, getEssenceEvent_ok root tag hns htag,
              getXpathFromEvent_found root "timestamp" tsEl hts,
              getXpathFromEvent_missing root "mediaId" hmid]⟩
        | some midEl =>
          rcases h with h | h | h | h
          · exact absurd hns h
          · exact absurd htag h
          · exact absurd hts (by rw [h]; exact fun hc => Option.noConfusion hc)
          · exact absurd hmid (by rw [h]; exact fun hc => Option.noConfusion hc)
    · exact ⟨⟨"Event root tag does not match."⟩,
        by simp [essenceEventBase, getEssenceEvent_badroot root tag (Or.inr htag)]⟩
  · exact ⟨⟨"Event root tag does not match."⟩,
      by simp [essenceEventBase, getEssenceEvent_badroot root tag (Or.inl hns)]⟩

/-- A failing base construction fails the linked-event constructor. -/
theorem linkedFailedOfBase (doc : Option XmlElem)
    (h : ∃ e, essenceEventBase doc "essenceLinkedEvent" = Except.error e) :
    parseFailed (essenceLinkedEventOfDoc doc) = true := by
  obtain ⟨e, he⟩ := h
  simp [essenceLinkedEventOfDoc, he, parseFailed]

/-- A failing base construction fails the unlinked-event constructor. -/
theorem unlinkedFailedOfBase (doc : Option XmlElem)
    (h : ∃ e, essenceEventBase doc "essenceUnlinkedEvent" = Except.error e) :
    parseFailed (essenceUnlinkedEventOfDoc doc) = true := by
  obtain ⟨e, he⟩ := h
  simp [essenceUnlinkedEventOfDoc, he, parseFailed]

/-- A failing base construction fails the deleted-event constructor. -/
theorem deletedFailedOfBase (doc : Option XmlElem)
    (h : ∃ e, essenceEventBase doc "objectDeletedEvent" = Except.error e) :
    parseFailed (objectDeletedEventOfDoc doc) = true := by
  obtain ⟨e, he⟩ := h
  simp [objectDeletedEventOfDoc, he, parseFailed]

/-- The linked-event constructor fails when `file` or `s3bucket` has no
matching child element. -/
theorem linkedFailedOfChildMissing (root : XmlElem)
    (hmiss : findChild root "file" = none ∨ findChild root "s3bucket" = none) :
    parseFailed (essenceLinkedEventOfDoc (some root)) = true := by
  by_cases hns : root.ns = VRT_NAMESPACE
  · by_cases htag : root.tag = "essenceLinkedEvent"
    · cases hts : findChild root "timestamp" with
      | none =>
        exact linkedFailedOfBase _ (essenceEventBase_failed root _ (Or.inr (Or.inr (Or.inl hts))))
      | some tsEl =>
        cases hmid : findChild root "mediaId" with
        | none =>
          exact linkedFailedOfBase _
            (essenceEventBase_failed root _ (Or.inr (Or.inr (Or.inr hmid))))
        | some midEl =>
          have hbase := essenceEventBase_ok root _ hns htag tsEl midEl hts hmid
          rcases hmiss with h | h
          · simp [essenceLinkedEventOfDoc, hbase,
              getXpathFromEvent_missing root "file" h, parseFailed]
          · cases hfile : findChild root "file" with
            | none =>
              simp [essenceLinkedEventOfDoc, hbase,
                getXpathFromEvent_missing root "file" hfile, parseFailed]
            | some fileEl =>
              simp [essenceLinkedEventOfDoc, hbase,
                getXpathFromEvent_found root "file" fileEl hfile,
                getXpathFromEvent_missing root "s3bucket" h, parseFailed]
    · exact linkedFailedOfBase _ (essenceEventBase_failed root _ (Or.inr (Or.inl htag)))
  · exact linkedFailedOfBase _ (essenceEventBase_failed root _ (Or.inl hns))

/-! ## Claim theorems C3, C5, C6, C10 -/

/-- C3: a fragment query declaring an expected result count N ≥ 0 raises a
non-requeueable `NackException` whenever the backend reports a different
total, and a query with expected count -1 performs no count check: a
successful backend response is returned whatever its reported total. -/
theorem c3_expected_amount_check (q : List (String × String)) (N : Int)
    (resp : SearchResponse) (hN : 0 ≤ N) :
    ((resp.totalNrOfResults : Int) ≠ N →
      ∃ e, get_fragment q N (MHCall.ok resp) = Except.error e ∧ e.requeue = false) ∧
    get_fragment q (-1) (MHCall.ok resp) = Except.ok resp := by
  constructor
  · intro hne
    refine ⟨⟨"Expected amount of results differs from the found amount", false,
      [("query", createQuery q)]⟩, ?_, rfl⟩
    have hcond : N > -1 ∧ (resp.totalNrOfResults : Int) ≠ N := ⟨by omega, hne⟩
    simp only [get_fragment]
    exact if_pos hcond
  · have hneg : ¬((-1 : Int) > -1 ∧ (resp.totalNrOfResults : Int) ≠ -1) :=
      fun hc => absurd hc.1 (by norm_num)
    simp only [get_fragment]
    exact if_neg hneg

/-- Witness for C3 at a concrete query expecting 1 result while the backend
reports 0. -/
theorem c3_expected_amount_check_witness :
    (∃ e, get_fragment [("k", "v")] 1 (MHCall.ok ⟨0, []⟩) = Except.error e ∧
      e.requeue = false) ∧
    get_fragment [("k", "v")] (-1) (MHCall.ok ⟨0, []⟩) = Except.ok ⟨0, []⟩ := by
  have h := c3_expected_amount_check [("k", "v")] 1 ⟨0, []⟩ (by norm_num)
  exact ⟨h.1 (by norm_num), h.2⟩

/-- C5: for input bytes that are not well-formed XML, or a root element not
matching the variant's expected tag under the VRT namespace, or any
mandatory field element absent, event construction raises
`InvalidEventException` and no event object is produced. -/
theorem c5_invalid_events_rejected (doc : Option XmlElem) :
    (doc = none → parseFailed (essenceLinkedEventOfDoc doc) = true ∧
      parseFailed (essenceUnlinkedEventOfDoc doc) = true ∧
      parseFailed (objectDeletedEventOfDoc doc) = true) ∧
    (∀ root, doc = some root →
      ((root.ns ≠ VRT_NAMESPACE ∨ root.tag ≠ "essenceLinkedEvent" ∨
          findChild root "timestamp" = none ∨ findChild root "mediaId" = none ∨
          findChild root "file" = none ∨ findChild root "s3bucket" = none) →
        parseFailed (essenceLinkedEventOfDoc doc) = true) ∧
      ((root.ns ≠ VRT_NAMESPACE ∨ root.tag ≠ "essenceUnlinkedEvent" ∨
          findChild root "timestamp" = none ∨ findChild root "mediaId" = none) →
        parseFailed (essenceUnlinkedEventOfDoc doc) = true) ∧
      ((root.ns ≠ VRT_NAMESPACE ∨ root.tag ≠ "objectDeletedEvent" ∨
          findChild root "timestamp" = none ∨ findChild root "mediaId" = none) →
        parseFailed (objectDeletedEventOfDoc doc) = true)) := by
  constructor
  · rintro rfl
    exact ⟨rfl, rfl, rfl⟩
  · rintro root rfl
    refine ⟨?_, ?_, ?_⟩
    · intro h
      rcases h with h | h | h | h | h | h
      · exact linkedFailedOfBase _ (essenceEventBase_failed root _ (Or.inl h))
      · exact linkedFailedOfBase _ (essenceEventBase_failed root _ (Or.inr (Or.inl h)))
      · exact linkedFailedOfBase _
          (essenceEventBase_failed root _ (Or.inr (Or.inr (Or.inl h))))
      · exact linkedFailedOfBase _
          (essenceEventBase_failed root _ (Or.inr (Or.inr (Or.inr h))))
      · exact linkedFailedOfChildMissing root (Or.inl h)
      · exact linkedFailedOfChildMissing root (Or.inr h)
    · intro h
      rcases h with h | h | h | h
      · exact unlinkedFailedOfBase _ (essenceEventBase_failed root _ (Or.inl h))
      · exact unlinkedFailedOfBase _ (essenceEventBase_failed root _ (Or.inr (Or.inl h)))
      · exact unlinkedFailedOfBase _
          (essenceEventBase_failed root _ (Or.inr (Or.inr (Or.inl h))))
      · exact unlinkedFailedOfBase _
          (essenceEventBase_failed root _ (Or.inr (Or.inr (Or.inr h))))
    · intro h
      rcases h with h | h | h | h
      · exact deletedFailedOfBase _ (essenceEventBase_failed root _ (Or.inl h))
      · exact deletedFailedOfBase _ (essenceEventBase_failed root _ (Or.inr (Or.inl h)))
      · exact deletedFailedOfBase _
          (essenceEventBase_failed root _ (Or.inr (Or.inr (Or.inl h))))
      · exact deletedFailedOfBase _
          (essenceEventBase_failed root _ (Or.inr (Or.inr (Or.inr h))))

/-- Witness for C5: a well-formed document whose root tag names an unlinked
event is rejected by the linked-event constructor. -/
theorem c5_invalid_events_rejected_witness :
    parseFailed (essenceLinkedEventOfDoc (some (XmlElem.mk
      "http://www.vrt.be/mig/viaa/api" "essenceUnlinkedEvent" none [] []))) = true :=
  ((c5_invalid_events_rejected (some (XmlElem.mk
      "http://www.vrt.be/mig/viaa/api" "essenceUnlinkedEvent" none [] []))).2 _ rfl).1
    (Or.inr (Or.inl (by intro h; exact absurd h (by decide))))

/-- C6: for a well-formed document in the VRT namespace with the matching
root tag and all mandatory field elements present, event construction
succeeds and every extracted field equals the text content of the first
matching child element. -/
theorem c6_valid_events_roundtrip (root : XmlElem)
    (tsEl midEl fileEl s3El : XmlElem)
    (hns : root.ns = VRT_NAMESPACE)
    (hts : findChild root "timestamp" = some tsEl)
    (hmid : findChild root "mediaId" = some midEl) :
    (root.tag = "essenceLinkedEvent" →
      findChild root "file" = some fileEl →
      findChild root "s3bucket" = some s3El →
      essenceLinkedEventOfDoc (some root) =
        Except.ok ⟨tsEl.text, midEl.text, fileEl.text, s3El.text⟩) ∧
    (root.tag = "essenceUnlinkedEvent" →
      essenceUnlinkedEventOfDoc (some root) = Except.ok ⟨tsEl.text, midEl.text⟩) ∧
    (root.tag = "objectDeletedEvent" →
      objectDeletedEventOfDoc (some root) = Except.ok ⟨tsEl.text, midEl.text⟩) := by
  refine ⟨?_, ?_, ?_⟩
  · intro htag hfile hs3
    simp [essenceLinkedEventOfDoc, essenceEventBase_ok root _ hns htag tsEl midEl hts hmid,
      getXpathFromEvent_found root "file" fileEl hfile,
      getXpathFromEvent_found root "s3bucket" s3El hs3]
  · intro htag
    simp [essenceUnlinkedEventOfDoc,
      essenceEventBase_ok root _ hns htag tsEl midEl hts hmid]
  · intro htag
    simp [objectDeletedEventOfDoc,
      essenceEventBase_ok root _ hns htag tsEl midEl hts hmid]

/-- Witness for C6: a concrete linked event round-trips its four fields. -/
theorem c6_valid_events_roundtrip_witness :
    essenceLinkedEventOfDoc (some (XmlElem.mk "http://www.vrt.be/mig/viaa/api"
      "essenceLinkedEvent" none []
      [XmlElem.mk "http://www.vrt.be/mig/viaa/api" "timestamp" (some "t0") [] [],
       XmlElem.mk "http://www.vrt.be/mig/viaa/api" "mediaId" (some "m0") [] [],
       XmlElem.mk "http://www.vrt.be/mig/viaa/api" "file" (some "f.mxf") [] [],
       XmlElem.mk "http://www.vrt.be/mig/viaa/api" "s3bucket" (some "b0") [] []])) =
      Except.ok ⟨some "t0", some "m0", some "f.mxf", some "b0"⟩ :=
  (c6_valid_events_roundtrip
    (XmlElem.mk "http://www.vrt.be/mig/viaa/api" "essenceLinkedEvent" none []
      [XmlElem.mk "http://www.vrt.be/mig/viaa/api" "timestamp" (some "t0") [] [],
       XmlElem.mk "http://www.vrt.be/mig/viaa/api" "mediaId" (some "m0") [] [],
       XmlElem.mk "http://www.vrt.be/mig/viaa/api" "file" (some "f.mxf") [] [],
       XmlElem.mk "http://www.vrt.be/mig/viaa/api" "s3bucket" (some "b0") [] []])
    (XmlElem.mk "http://www.vrt.be/mig/viaa/api" "timestamp" (some "t0") [] [])
    (XmlElem.mk "http://www.vrt.be/mig/viaa/api" "mediaId" (some "m0") [] [])
    (XmlElem.mk "http://www.vrt.be/mig/viaa/api" "file" (some "f.mxf") [] [])
    (XmlElem.mk "http://www.vrt.be/mig/viaa/api" "s3bucket" (some "b0") [] [])
    rfl rfl rfl).1 rfl rfl rfl

/-- C10: an otherwise well-formed linked event with `file`, `mediaId` and
`timestamp` present but no `s3bucket` child element is rejected: the code
extracts `s3_bucket` as a mandatory field. -/
theorem c10_s3bucket_extracted_mandatory (root : XmlElem)
    (tsEl midEl fileEl : XmlElem)
    (hns : root.ns = VRT_NAMESPACE) (htag : root.tag = "essenceLinkedEvent")
    (hts : findChild root "timestamp" = some tsEl)
    (hmid : findChild root "mediaId" = some midEl)
    (hfile : findChild root "file" = some fileEl)
    (hs3 : findChild root "s3bucket" = none) :
    essenceLinkedEventOfDoc (some root) =
      Except.error ⟨"Field is not present in the event."⟩ := by
  simp [essenceLinkedEventOfDoc, essenceEventBase_ok root _ hns htag tsEl midEl hts hmid,
    getXpathFromEvent_found root "file" fileEl hfile,
    getXpathFromEvent_missing root "s3bucket" hs3]

/-- Witness for C10: a concrete linked event lacking only `s3bucket` raises
`InvalidEventException`. -/
theorem c10_s3bucket_extracted_mandatory_witness :
    essenceLinkedEventOfDoc (some (XmlElem.mk "http://www.vrt.be/mig/viaa/api"
      "essenceLinkedEvent" none []
      [XmlElem.mk "http://www.vrt.be/mig/viaa/api" "timestamp" (some "t0") [] [],
       XmlElem.mk "http://www.vrt.be/mig/viaa/api" "mediaId" (some "m0") [] [],
       XmlElem.mk "http://www.vrt.be/mig/viaa/api" "file" (some "f.mxf") [] []])) =
      Except.error ⟨"Field is not present in the event."⟩ :=
  c10_s3bucket_extracted_mandatory
    (XmlElem.mk "http://www.vrt.be/mig/viaa/api" "essenceLinkedEvent" none []
      [XmlElem.mk "http://www.vrt.be/mig/viaa/api" "timestamp" (some "t0") [] [],
       XmlElem.mk "http://www.vrt.be/mig/viaa/api" "mediaId" (some "m0") [] [],
       XmlElem.mk "http://www.vrt.be/mig/viaa/api" "file" (some "f.mxf") [] []])
    (XmlElem.mk "http://www.vrt.be/mig/viaa/api" "timestamp" (some "t0") [] [])
    (XmlElem.mk "http://www.vrt.be/mig/viaa/api" "mediaId" (some "m0") [] [])
    (XmlElem.mk "http://www.vrt.be/mig/viaa/api" "file" (some "f.mxf") [] [])
    rfl rfl rfl rfl rfl rfl

/-! ## Claim theorems C4, C7, C8, C9 -/

/-- C4: a linked event whose `s3_bucket` equals the sentinel
"original-video" is handled successfully immediately after parsing: no
backend query is issued, no fragment is created, no PID is fetched and no
outbound message is published. -/
theorem c4_original_video_skip (doc : Option XmlElem) (env : LinkedEnv) (rk : String)
    (ev : EssenceLinkedEventData)
    (hparse : essenceLinkedEventOfDoc doc = Except.ok ev)
    (hbucket : ev.s3Bucket = some "original-video") :
    (handleLinkedEvent doc env rk).1 = HandlerOutcome.ok () ∧
    (∀ q, Effect.searchQuery q ∉ (handleLinkedEvent doc env rk).2) ∧
    Effect.getPidCall ∉ (handleLinkedEvent doc env rk).2 ∧
    (∀ u, Effect.createFragmentCall u ∉ (handleLinkedEvent doc env rk).2) ∧
    (∀ f, Effect.updateMetadataCall f ∉ (handleLinkedEvent doc env rk).2) ∧
    (∀ r, Effect.sendMessage r ∉ (handleLinkedEvent doc env rk).2) := by
  have hTrace : handleLinkedEvent doc env rk =
      (HandlerOutcome.ok (), [Effect.logInfo "Start handling essence linked event",
        Effect.logInfo ("Skipped " ++ pyStr ev.file ++ " because it arrived in the " ++
          pyStr ev.s3Bucket ++ " bucket.")]) := by
    simp [handleLinkedEvent, linkedParseEvent, hparse, hbucket]
  rw [hTrace]
  simp

/-- Witness for C4: a concrete original-video event against an unreachable
backend is still handled successfully without fetching a PID. -/
theorem c4_original_video_skip_witness :
    (handleLinkedEvent (some (XmlElem.mk "http://www.vrt.be/mig/viaa/api"
        "essenceLinkedEvent" none []
        [XmlElem.mk "http://www.vrt.be/mig/viaa/api" "timestamp" (some "t0") [] [],
         XmlElem.mk "http://www.vrt.be/mig/viaa/api" "mediaId" (some "m0") [] [],
         XmlElem.mk "http://www.vrt.be/mig/viaa/api" "file" (some "f.mxf") [] [],
         XmlElem.mk "http://www.vrt.be/mig/viaa/api" "s3bucket"
           (some "original-video") [] []]))
      ⟨MHCall.reqError "down", MHCall.reqError "down", none, MHCall.reqError "down",
        fun _ => UpdateAttempt.reqError "down"⟩ "rkey").1 = HandlerOutcome.ok () ∧
    Effect.getPidCall ∉ (handleLinkedEvent (some (XmlElem.mk
        "http://www.vrt.be/mig/viaa/api" "essenceLinkedEvent" none []
        [XmlElem.mk "http://www.vrt.be/mig/viaa/api" "timestamp" (some "t0") [] [],
         XmlElem.mk "http://www.vrt.be/mig/viaa/api" "mediaId" (some "m0") [] [],
         XmlElem.mk "http://www.vrt.be/mig/viaa/api" "file" (some "f.mxf") [] [],
         XmlElem.mk "http://www.vrt.be/mig/viaa/api" "s3bucket"
           (some "original-video") [] []]))
      ⟨MHCall.reqError "down", MHCall.reqError "down", none, MHCall.reqError "down",
        fun _ => UpdateAttempt.reqError "down"⟩ "rkey").2 := by
  have h := c4_original_video_skip (some (XmlElem.mk "http://www.vrt.be/mig/viaa/api"
      "essenceLinkedEvent" none []
      [XmlElem.mk "http://www.vrt.be/mig/viaa/api" "timestamp" (some "t0") [] [],
       XmlElem.mk "http://www.vrt.be/mig/viaa/api" "mediaId" (some "m0") [] [],
       XmlElem.mk "http://www.vrt.be/mig/viaa/api" "file" (some "f.mxf") [] [],
       XmlElem.mk "http://www.vrt.be/mig/viaa/api" "s3bucket"
         (some "original-video") [] []]))
    ⟨MHCall.reqError "down", MHCall.reqError "down", none, MHCall.reqError "down",
      fun _ => UpdateAttempt.reqError "down"⟩ "rkey"
    ⟨some "t0", some "m0", some "f.mxf", some "original-video"⟩ rfl rfl
  exact ⟨h.1, h.2.2.1⟩

/-- Deletions that return `true` for a prefix of the records leave the loop
to continue on the remaining records. -/
theorem deleteLoop_skip_ok (deleteCall : String → MHCall Bool) (mediaId : Option String)
    (done rest : List MHRecord)
    (h : ∀ r ∈ done, deleteCall r.fragmentId = MHCall.ok true) :
    deleteLoop deleteCall mediaId (done ++ rest) = deleteLoop deleteCall mediaId rest := by
  induction done with
  | nil => rfl
  | cons r rs ih =>
    have hr := h r (List.mem_cons_self r rs)
    have hrest : ∀ x ∈ rs, deleteCall x.fragmentId = MHCall.ok true :=
      fun x hx => h x (List.mem_cons_of_mem r hx)
    simp only [List.cons_append, deleteLoop, delete_fragment, hr]
    exact ih hrest

/-- C7: for the delete pipeline, a zero reported total raises a
non-requeueable `NackException`; reaching a record whose delete call raises
a transport-level connectivity error raises a requeueable `NackException`;
and a record whose delete call returns `false` aborts the loop with a
non-requeueable `NackException`. -/
theorem c7_delete_pipeline (mediaId : Option String) (resp : SearchResponse)
    (deleteCall : String → MHCall Bool) :
    (resp.totalNrOfResults = 0 →
      ∃ e, deleteHandleEvent mediaId (MHCall.ok resp) deleteCall = Except.error e ∧
        e.requeue = false) ∧
    (∀ done r rest, resp.records = done ++ r :: rest →
      resp.totalNrOfResults ≠ 0 →
      (∀ x ∈ done, deleteCall x.fragmentId = MHCall.ok true) →
      (∀ m, deleteCall r.fragmentId = MHCall.reqError m →
        ∃ e, deleteHandleEvent mediaId (MHCall.ok resp) deleteCall = Except.error e ∧
          e.requeue = true) ∧
      (deleteCall r.fragmentId = MHCall.ok false →
        ∃ e, deleteHandleEvent mediaId (MHCall.ok resp) deleteCall = Except.error e ∧
          e.requeue = false)) := by
  have hsearch : get_fragment [("dc_identifier_localid", pyStr mediaId)] (-1)
      (MHCall.ok resp) = Except.ok resp := by
    have hneg : ¬((-1 : Int) > -1 ∧ (resp.totalNrOfResults : Int) ≠ -1) :=
      fun hc => absurd hc.1 (by norm_num)
    simp only [get_fragment]
    exact if_neg hneg
  constructor
  · intro h0
    exact ⟨⟨"No fragments found for media id", false, [("media_id", pyStr mediaId)]⟩,
      by simp [deleteHandleEvent, hsearch, h0], rfl⟩
  · intro done r rest hrec hne hdone
    have hloop : deleteHandleEvent mediaId (MHCall.ok resp) deleteCall =
        deleteLoop deleteCall mediaId (r :: rest) := by
      simp [deleteHandleEvent, hsearch, hne, hrec,
        deleteLoop_skip_ok deleteCall mediaId done (r :: rest) hdone]
    constructor
    · intro m hm
      refine ⟨⟨"Unable to connect to MediaHaven", true,
        [("fragment_id", r.fragmentId)]⟩, ?_, rfl⟩
      rw [hloop]
      simp [deleteLoop, delete_fragment, hm]
    · intro hfalse
      refine ⟨⟨"Unable to delete the fragment", false,
        [("fragment_id", r.fragmentId), ("media_id", pyStr mediaId)]⟩, ?_, rfl⟩
      rw [hloop]
      simp [deleteLoop, delete_fragment, hfalse]

/-- Witness for C7: one matched record whose delete raises a connectivity
error makes the delete handler nack with requeue. -/
theorem c7_delete_pipeline_witness :
    ∃ e, deleteHandleEvent (some "m0")
      (MHCall.ok ⟨1, [MHRecord.mk "f1" none none "title"]⟩)
      (fun _ => MHCall.reqError "conn") = Except.error e ∧ e.requeue = true := by
  have h := (c7_delete_pipeline (some "m0") ⟨1, [MHRecord.mk "f1" none none "title"]⟩
    (fun _ => MHCall.reqError "conn")).2 [] (MHRecord.mk "f1" none none "title") [] rfl
    (by decide) (fun x hx => absurd hx (List.not_mem_nil x))
  exact h.1 "conn" rfl

/-- C8: the source's PID fetch is NOT wrapped in the retry primitive: with
the PID service unreachable on every attempt, `PIDService.get_pid` makes a
single HTTP attempt, performs zero backoff sleeps (the accompanying tests
assert `time.sleep` is called `NUMBER_OF_TRIES` times here), and the linked
handler immediately raises its requeueable `NackException`. -/
theorem c8_pid_fetch_not_retried :
    getPid (fun _ => PidHttpResult.reqError) = (none, 1, []) ∧
    (getPid (fun _ => PidHttpResult.reqError)).2.1 ≠ NUMBER_OF_TRIES ∧
    (getPid (fun _ => PidHttpResult.reqError)).2.2.length ≠ NUMBER_OF_TRIES ∧
    handlerGetPid (getPid (fun _ => PidHttpResult.reqError)).1 =
      Except.error ⟨"Unable to get a pid", true, []⟩ := by
  refine ⟨rfl, ?_, ?_, rfl⟩ <;> decide

/-- C9: for every media id, PID and intellectual-entity type, the metadata
sidecar is the namespaced `Sidecar` root carrying `version="20.1"` with one
`Dynamic` element whose children appear in the fixed order
`dc_identifier_localid` (= media id), `PID` (= pid),
`dc_identifier_localids` containing `MEDIA_ID` (= media id), `object_level`
with constant text "ie", `object_use` with constant text "archive_master",
and `ie_type` (= ie type). -/
theorem c9_sidecar_shape (mediaId pid ieType : String) :
    construct_metadata (some mediaId) pid (some ieType) =
      XmlElem.mk NAMESPACE_MHS "Sidecar" none [("version", "20.1")]
        [XmlElem.mk NAMESPACE_MHS "Dynamic" none []
          [XmlElem.mk "" "dc_identifier_localid" (some mediaId) [] [],
           XmlElem.mk "" "PID" (some pid) [] [],
           XmlElem.mk "" "dc_identifier_localids" none []
             [XmlElem.mk "" "MEDIA_ID" (some mediaId) [] []],
           XmlElem.mk "" "object_level" (some "ie") [] [],
           XmlElem.mk "" "object_use" (some "archive_master") [] [],
           XmlElem.mk "" "ie_type" (some ieType) [] []]] := rfl

end VrtEventsEssence
